import Mathlib

/-!
Shallow embedding of the JIRA import / status-propagation core of the
task-manager repository (src/main/jira-api.ts and
src/main/ipc/jira-handlers.ts), with theorems checking the
natural-language specification against it.

External collaborator modules (task cache, fragment serializer,
usable-api, member cache, config stores) are out-of-scope per the spec
and are modelled as oracle inputs to the import flow.
-/

/-- ASCII lowercase of a character, modelling JS `toLowerCase` on the
ASCII names the code compares. -/
def lowerChar (c : Char) : Char :=
  if 65 ≤ c.toNat ∧ c.toNat ≤ 90 then Char.ofNat (c.toNat + 32) else c

/-- Lowercase a string (models `String.prototype.toLowerCase`). -/
def strLower (s : String) : String := ⟨s.data.map lowerChar⟩

/-- JS whitespace test for the characters `trim` removes (ASCII subset). -/
def isWs (c : Char) : Bool := c == ' ' || c == '\t' || c == '\n' || c == '\r'

/-- Models `String.prototype.trim`: strip whitespace at both ends. -/
def strTrim (s : String) : String :=
  ⟨((s.data.dropWhile isWs).reverse.dropWhile isWs).reverse⟩

/-- `leadsWith pat s`: `pat` is a prefix of `s` (character lists). -/
def leadsWith : List Char → List Char → Bool
  | [], _ => true
  | _ :: _, [] => false
  | p :: ps, c :: cs => p == c && leadsWith ps cs

/-- `hasSub pat s`: `pat` occurs as a contiguous substring of `s`. -/
def hasSub (pat : List Char) : List Char → Bool
  | [] => leadsWith pat []
  | c :: t => leadsWith pat (c :: t) || hasSub pat t

/-- Models JS `s.includes(pat)` for the non-empty literal patterns the
code uses. -/
def strIncludes (s pat : String) : Bool := hasSub pat.data s.data

/-- JS truthiness of a `string | undefined` value: present and non-empty. -/
def optTruthy : Option String → Bool
  | some s => s ≠ ""
  | none => false

/-- JS `a || b` on `string | undefined` values. -/
def orTruthy (a b : Option String) : Option String :=
  match a with
  | some s => if s ≠ "" then some s else b
  | none => b

/-- Planner task status enum (`TaskStatus` in shared/types.ts). -/
inductive TaskStatus where
  | todo
  | inProgress
  | done
  | archived
deriving DecidableEq, Repr

/-- Planner task priority enum (`TaskPriority` in shared/types.ts). -/
inductive TaskPriority where
  | low
  | medium
  | high
  | urgent
deriving DecidableEq, Repr

/-- `jiraStatusToPlanner` from ipc/jira-handlers.ts: map a JIRA status
name to a planner status by case-insensitive substring matching. -/
def jiraStatusToPlanner (statusName : String) : TaskStatus :=
  let lower := strLower statusName
  if strIncludes lower "progress" || strIncludes lower "development" ||
     strIncludes lower "review" then .inProgress
  else if strIncludes lower "done" || strIncludes lower "closed" ||
     strIncludes lower "resolved" || strIncludes lower "complete" then .done
  else if strIncludes lower "backlog" then .todo
  else .todo

/-- `jiraPriorityToPlanner` from ipc/jira-handlers.ts. -/
def jiraPriorityToPlanner (name : Option String) : TaskPriority :=
  match name with
  | none => .medium
  | some n =>
    let lower := strLower n
    if strIncludes lower "highest" || strIncludes lower "critical" ||
       lower == "urgent" then .urgent
    else if strIncludes lower "high" then .high
    else if strIncludes lower "low" || strIncludes lower "lowest" then .low
    else .medium

/-- The condition under which `jiraStatusToPlanner` recognizes one of its
substrings (any branch of the if-chain fires). -/
def statusRecognized (statusName : String) : Bool :=
  let lower := strLower statusName
  strIncludes lower "progress" || strIncludes lower "development" ||
  strIncludes lower "review" || strIncludes lower "done" ||
  strIncludes lower "closed" || strIncludes lower "resolved" ||
  strIncludes lower "complete" || strIncludes lower "backlog"

/-- The condition under which `jiraPriorityToPlanner` recognizes one of
its substrings. -/
def priorityRecognized (name : String) : Bool :=
  let lower := strLower name
  strIncludes lower "highest" || strIncludes lower "critical" ||
  lower == "urgent" || strIncludes lower "high" ||
  strIncludes lower "low" || strIncludes lower "lowest"

/-- `fields.status?.name ?? 'Unknown'` in getJiraIssue (jira-api.ts):
the status name substituted when the tracker response omits a status. -/
def statusNameOfRaw (statusField : Option String) : String :=
  statusField.getD "Unknown"

example : jiraStatusToPlanner "In Progress" = .inProgress := by decide
example : jiraStatusToPlanner "Unknown" = .todo := by decide
example : jiraPriorityToPlanner (some "Highest") = .urgent := by decide
example : strLower (strTrim " Jane@Co.com ") = "jane@co.com" := by decide

/-- Target-status descriptor of a JIRA transition (`to` field). -/
structure TransitionTarget where
  id : String
  name : String
deriving DecidableEq, Repr

/-- `JiraTransition` from jira-api.ts; `toStatus` models its `to` field
(the optional target-status descriptor). -/
structure JiraTransition where
  id : String
  name : String
  toStatus : Option TransitionTarget
deriving DecidableEq, Repr

/-- `PLANNER_STATUS_TO_JIRA_STATUS` table from jira-api.ts. -/
def plannerStatusToJiraStatus : TaskStatus → List String
  | .todo => ["To Do", "Open", "Backlog", "Selected for Development"]
  | .inProgress => ["In Progress", "In Development", "In Review"]
  | .done => ["Done", "Closed", "Resolved", "Complete"]
  | .archived => ["Done", "Closed", "Resolved", "Complete"]

/-- The expression `t.to?.name ?? t.name` in transitionJiraIssue: the
effective name a transition is matched by. -/
def transitionTargetName (t : JiraTransition) : String :=
  match t.toStatus with
  | some tt => tt.name
  | none => t.name

/-- The transition-selection step of `transitionJiraIssue`: build the
lowered target-name set for the planner status and find the first
available transition whose effective name is in it. -/
def selectTransition (plannerStatus : TaskStatus)
    (transitions : List JiraTransition) : Option JiraTransition :=
  let targetSet := (plannerStatusToJiraStatus plannerStatus).map strLower
  transitions.find? (fun t => targetSet.contains (strLower (transitionTargetName t)))

/-- Models JS `Array.prototype.join(sep)` on a list of strings. -/
def joinSep (sep : String) : List String → String
  | [] => ""
  | [s] => s
  | s :: rest => s ++ sep ++ joinSep sep rest

/-- The no-match error message built by `transitionJiraIssue`:
quotes the first ranked name and lists the available transition names
(joined with a comma), or the word none when there are no transitions. -/
def noMatchError (issueKey : String) (plannerStatus : TaskStatus)
    (transitions : List JiraTransition) : String :=
  let joined := joinSep ", " (transitions.map transitionTargetName)
  let available := if joined == "" then "none" else joined
  "No transition to \"" ++ ((plannerStatusToJiraStatus plannerStatus).headD "")
    ++ "\" for " ++ issueKey ++ ". Available: " ++ available

/-- Result shape of `transitionJiraIssue`:
`{ ok: true } | { ok: false; error: string }`. -/
inductive TransitionApiResult where
  | ok
  | err (msg : String)
deriving DecidableEq, Repr

/-- Outcome of one run of `transitionJiraIssue` given the fetched
transitions list: which transition id was POSTed (if any) and the
returned result. -/
structure TransitionRunResult where
  posted : Option String
  result : TransitionApiResult
deriving DecidableEq, Repr

/-- `transitionJiraIssue` after the transitions have been fetched.
`post` is an oracle for the HTTP POST executing a transition id:
it returns the mapped result (`ok` on 2xx, `err` with the failure
message otherwise). If no transition matches, nothing is POSTed and the
no-match error is returned. -/
def transitionRun (post : String → TransitionApiResult) (issueKey : String)
    (plannerStatus : TaskStatus) (transitions : List JiraTransition) :
    TransitionRunResult :=
  match selectTransition plannerStatus transitions with
  | none => ⟨none, .err (noMatchError issueKey plannerStatus transitions)⟩
  | some t => ⟨some t.id, post t.id⟩

/-- Spec-side matching predicate: the transition's effective target name
is, case-insensitively, a member of the ranked-name set for the status. -/
def matchesStatus (plannerStatus : TaskStatus) (t : JiraTransition) : Prop :=
  ∃ n ∈ plannerStatusToJiraStatus plannerStatus,
    strLower n = strLower (transitionTargetName t)

instance (st : TaskStatus) (t : JiraTransition) : Decidable (matchesStatus st t) := by
  unfold matchesStatus
  infer_instance

/-- Nodes of an ADF (Atlassian Document Format) document as consumed by
`descriptionToPlainText` in jira-api.ts: a node either is a non-object
scalar (skipped by the walk) or carries an optional string `text` field
and an optional array `content` field (`none` models an absent field or
one of the wrong shape). -/
inductive ADFNode where
  | scalar
  | node (text : Option String) (content : Option (List ADFNode))

mutual

/-- The body of the `walk` loop for a single node, threading the `parts`
accumulator: push the node's `text` when it is a string, then recurse
into `content` when it is an array. -/
def walkNode (acc : List String) : ADFNode → List String
  | .scalar => acc
  | .node t c =>
    let acc1 := match t with
      | some s => acc ++ [s]
      | none => acc
    match c with
    | some kids => walkList acc1 kids
    | none => acc1

/-- The `walk` function of `descriptionToPlainText`, with the mutated
`parts` array made an explicit accumulator. -/
def walkList (acc : List String) : List ADFNode → List String
  | [] => acc
  | n :: rest => walkList (walkNode acc n) rest

end

mutual

/-- Spec-side flattening of one node: its own text (if any) followed by
the leaf texts of its children, in document order. -/
def nodeTexts : ADFNode → List String
  | .scalar => []
  | .node t c =>
    (match t with | some s => [s] | none => []) ++
    (match c with | some kids => listTexts kids | none => [])

/-- Spec-side flattening of a node list in document order. -/
def listTexts : List ADFNode → List String
  | [] => []
  | n :: rest => nodeTexts n ++ listTexts rest

end

/-- The `value` argument of `descriptionToPlainText`: `null`/`undefined`,
a plain string, an object with a `content` field (an ADF document whose
`content` is `none` when the field is not an array), or any other value
whose JS string conversion is `s`. -/
inductive DescValue where
  | nullVal
  | strVal (s : String)
  | docVal (content : Option (List ADFNode))
  | otherVal (s : String)

/-- `descriptionToPlainText` from jira-api.ts. -/
def descriptionToPlainText : DescValue → String
  | .nullVal => ""
  | .strVal s => s
  | .docVal c =>
    let parts := walkList [] (match c with | some ns => ns | none => [])
    strTrim (joinSep " " parts)
  | .otherVal s => s

example :
    descriptionToPlainText
      (.docVal (some [ADFNode.node none (some [ADFNode.node (some "a") none]),
                      ADFNode.node (some "b") none])) = "a b" := by decide

example :
    selectTransition .done
      [⟨"1", "In Review", none⟩, ⟨"2", "Closed", none⟩] =
      some ⟨"2", "Closed", none⟩ := by decide

example : selectTransition .done [⟨"9", "Backlog", none⟩] = none := by decide

/-- `JiraIssueInfo` from jira-api.ts (normalized issue view). -/
structure JiraIssueInfo where
  key : String
  summary : String
  description : String
  statusName : String
  priorityName : Option String
  issueType : Option String
  webUrl : String
  projectKey : Option String
  projectName : Option String
  assigneeEmail : Option String
  assigneeDisplayName : Option String
  epicKey : Option String
  epicName : Option String
deriving DecidableEq, Repr

/-- `JiraConfig`: tracker credentials (domain, email, API token). -/
structure JiraConfig where
  domain : String
  email : String
  apiToken : String
deriving DecidableEq, Repr

/-- The part of the workspace configuration the import handler reads. -/
structure WorkspaceConfig where
  workspaceId : String
  taskFragmentTypeId : Option String
deriving DecidableEq, Repr

/-- A workspace member as seen by the assignee-matching step
(`getCachedMembers` result); `email` is optional because the handler
guards the access with an optional chain. -/
structure Member where
  userId : String
  email : Option String
deriving DecidableEq, Repr

/-- The planner task fields the import path constructs and the dedup
check reads (`TaskWithTags` in shared/types.ts, comments carried as a
plain string list). -/
structure PlannerTask where
  id : String
  title : String
  description : String
  status : TaskStatus
  priority : TaskPriority
  kanbanOrder : Nat
  listOrder : Nat
  createdAt : String
  updatedAt : String
  tags : List String
  projects : List String
  dependencies : List String
  comments : List String
  assigneeId : Option String
  jiraKey : Option String
  jiraUrl : Option String
deriving DecidableEq, Repr

/-- Oracle inputs to one run of the `JIRA_IMPORT_TASK` handler: the
configuration reads and the results of every external-collaborator call
the handler can make. `Frag` is the abstract remote fragment type;
`fragToTask` models `fragmentToTask` of the fragment serializer. -/
structure ImportDeps (Frag : Type) where
  /-- `getJiraConfig()` result. -/
  jiraConfig : Option JiraConfig
  /-- `getWorkspaceConfig()` result. -/
  workspace : Option WorkspaceConfig
  /-- `getJiraIssue(config, k)` outcome per issue key `k`
  (`.error` models a thrown error, carrying its string form). -/
  fetchIssue : String → Except String JiraIssueInfo
  /-- `getCachedTaskFragments(workspaceId)` result. -/
  cachedFragments : List Frag
  /-- `fragmentToTask` from the fragment serializer. -/
  fragToTask : Frag → PlannerTask
  /-- `getCachedMembers(workspaceId)` result. -/
  members : List Member
  /-- `countFragments(workspaceId, tags source:my-tasks-plan)` result:
  the current count of fragments tagged with the local-origin marker. -/
  countLocal : Nat
  /-- `createFragment(...)` outcome: the new fragment id, or a thrown
  error. -/
  createResult : Except String String
  /-- `new Date().toISOString()` at the time of the run. -/
  now : String

/-- Observable outcome of one `JIRA_IMPORT_TASK` handler run: the IPC
response (`.ok` = success with data, `.error` = failure with message),
whether `createFragment` was called, and the issue keys fetched from the
tracker, in call order. -/
structure ImportOutcome where
  response : Except String PlannerTask
  createCalled : Bool
  fetchCalls : List String

/-- The fetch-plus-epic-resolution prefix of the import handler:
fetch the issue; when it has an epic key but no epic name, do one more
fetch for the epic and fill `epicName` from its summary, falling back to
the epic key on an empty summary or a failed fetch. Returns the resolved
issue and the list of fetched keys. -/
def resolveIssue {Frag : Type} (deps : ImportDeps Frag) (issueKey : String) :
    Except String (JiraIssueInfo × List String) :=
  match deps.fetchIssue issueKey with
  | .error e => .error e
  | .ok issue0 =>
    if optTruthy issue0.epicKey && !(optTruthy issue0.epicName) then
      match issue0.epicKey with
      | some k =>
        match deps.fetchIssue k with
        | .ok epicIssue =>
          .ok ({ issue0 with
                   epicName := some (if epicIssue.summary == "" then k
                                     else epicIssue.summary) }, [issueKey, k])
        | .error _ => .ok ({ issue0 with epicName := some k }, [issueKey, k])
      | none => .ok (issue0, [issueKey])
    else .ok (issue0, [issueKey])

/-- The dedup predicate of the import handler: the cached fragment,
decoded to a task, carries the fetched issue's key as its `jiraKey`. -/
def dedupHit {Frag : Type} (deps : ImportDeps Frag) (issue : JiraIssueInfo)
    (f : Frag) : Bool :=
  (deps.fragToTask f).jiraKey == some issue.key

/-- The member-matching predicate of the assignee-resolution step:
`m.email?.trim().toLowerCase() === issueEmail.trim().toLowerCase()`. -/
def memberMatchB (e : String) (m : Member) : Bool :=
  match m.email with
  | some me => strLower (strTrim me) == strLower (strTrim e)
  | none => false

/-- The task the import handler constructs from the resolved issue and
returns to the caller (the same fields it passes to `createFragment`). -/
def derivedTask {Frag : Type} (deps : ImportDeps Frag) (issue : JiraIssueInfo)
    (fragId : String) : PlannerTask :=
  let status := jiraStatusToPlanner issue.statusName
  let priority := jiraPriorityToPlanner issue.priorityName
  let order := deps.countLocal
  let description :=
    "View full details in JIRA: [" ++ issue.key ++ "](" ++ issue.webUrl ++ ")"
  let tags := match issue.projectKey with
    | some pk => if pk ≠ "" then ["jira", pk] else ["jira"]
    | none => ["jira"]
  let projectName :=
    orTruthy issue.epicName (orTruthy issue.epicKey
      (orTruthy issue.projectName issue.projectKey))
  let projects := match projectName with
    | some p => if p ≠ "" then [p] else []
    | none => []
  let assigneeId : Option String := match issue.assigneeEmail with
    | some e =>
      if e ≠ "" then (deps.members.find? (memberMatchB e)).map (·.userId)
      else none
    | none => none
  { id := fragId,
    title := "[" ++ issue.key ++ "] " ++ issue.summary,
    description := description,
    status := status,
    priority := priority,
    kanbanOrder := order,
    listOrder := order,
    createdAt := deps.now,
    updatedAt := deps.now,
    tags := tags,
    projects := projects,
    dependencies := [],
    comments := [],
    assigneeId := assigneeId,
    jiraKey := some issue.key,
    jiraUrl := some issue.webUrl }

/-- The create step of the import handler, reached only when the dedup
check found no cached task with the issue's key. -/
def importCreate {Frag : Type} (deps : ImportDeps Frag) (issue : JiraIssueInfo)
    (calls : List String) : ImportOutcome :=
  match deps.createResult with
  | .error err => ⟨.error err, true, calls⟩
  | .ok fragId => ⟨.ok (derivedTask deps issue fragId), true, calls⟩

/-- The `JIRA_IMPORT_TASK` handler from ipc/jira-handlers.ts, as a pure
function of its oracle inputs. -/
def importIssue {Frag : Type} (deps : ImportDeps Frag) (issueKey : String) :
    ImportOutcome :=
  match deps.jiraConfig with
  | none =>
    ⟨.error "JIRA is not configured. Add domain, email, and API token in Settings.",
     false, []⟩
  | some _ =>
  match deps.workspace with
  | none => ⟨.error "No workspace or fragment type configured.", false, []⟩
  | some w =>
  if !(optTruthy w.taskFragmentTypeId) then
    ⟨.error "No workspace or fragment type configured.", false, []⟩
  else
  match resolveIssue deps issueKey with
  | .error e => ⟨.error e, false, [issueKey]⟩
  | .ok (issue, calls) =>
  match deps.cachedFragments.find? (dedupHit deps issue) with
  | some existing => ⟨.ok (deps.fragToTask existing), false, calls⟩
  | none => importCreate deps issue calls

/-- Spec-side: the first present (and non-empty) value in a list of
optional strings, as in the project-name preference chain. -/
def firstTruthy (l : List (Option String)) : Option String :=
  l.findSome? (fun o => match o with
    | some s => if s ≠ "" then some s else none
    | none => none)

/-- Spec-side: the member's email equals the issue assignee email after
trimming surrounding whitespace and lowercasing on both sides. -/
def emailMatches (e : String) (m : Member) : Prop :=
  ∃ me, m.email = some me ∧ strLower (strTrim me) = strLower (strTrim e)

/-- Sample workspace configuration for concrete runs. -/
def wsSample : WorkspaceConfig := ⟨"ws-1", some "ft-1"⟩

/-- Sample tracker credentials for concrete runs. -/
def cfgSample : JiraConfig := ⟨"acme", "dev@acme.io", "token-1"⟩

/-- A fully-absent optional block of a sample issue. -/
def issueBase : JiraIssueInfo :=
  { key := "", summary := "", description := "", statusName := "Unknown",
    priorityName := none, issueType := none, webUrl := "",
    projectKey := none, projectName := none, assigneeEmail := none,
    assigneeDisplayName := none, epicKey := none, epicName := none }

/-- Sample issue for the dedup run: key `X-1`. -/
def c1Issue : JiraIssueInfo :=
  { issueBase with key := "X-1", summary := "Duplicate me",
                   statusName := "To Do", webUrl := "https://acme.atlassian.net/browse/X-1" }

/-- A cached task already linked to `X-1`. -/
def c1Task : PlannerTask :=
  { id := "frag-0", title := "[X-1] Duplicate me", description := "",
    status := .todo, priority := .medium, kanbanOrder := 0, listOrder := 0,
    createdAt := "2025-01-01T00:00:00.000Z", updatedAt := "2025-01-01T00:00:00.000Z",
    tags := ["jira"], projects := [], dependencies := [], comments := [],
    assigneeId := none, jiraKey := some "X-1", jiraUrl := none }

/-- Oracle inputs for the dedup run: the cache already holds `c1Task`. -/
def c1Deps : ImportDeps PlannerTask :=
  { jiraConfig := some cfgSample, workspace := some wsSample,
    fetchIssue := fun k => if k == "X-1" then .ok c1Issue else .error "not found",
    cachedFragments := [c1Task], fragToTask := id, members := [],
    countLocal := 3, createResult := .ok "frag-9",
    now := "2026-01-01T00:00:00.000Z" }

/-- Sample issue for the derived-task run: `PROJ-9`, In Progress. -/
def c4Issue : JiraIssueInfo :=
  { issueBase with key := "PROJ-9", summary := "Fix login",
                   statusName := "In Progress", priorityName := some "High",
                   webUrl := "https://acme.atlassian.net/browse/PROJ-9",
                   projectKey := some "PROJ", projectName := some "Project Nine" }

/-- Oracle inputs for the derived-task run: empty cache, create succeeds. -/
def c4Deps : ImportDeps PlannerTask :=
  { jiraConfig := some cfgSample, workspace := some wsSample,
    fetchIssue := fun k => if k == "PROJ-9" then .ok c4Issue else .error "not found",
    cachedFragments := [], fragToTask := id, members := [],
    countLocal := 7, createResult := .ok "frag-1",
    now := "2026-01-01T00:00:00.000Z" }

/-- Oracle inputs with no tracker credentials configured. -/
def c5DepsA : ImportDeps PlannerTask :=
  { c4Deps with jiraConfig := none }

/-- Oracle inputs with credentials but no workspace configured. -/
def c5DepsB : ImportDeps PlannerTask :=
  { c4Deps with workspace := none }

/-- Sample issue whose assignee email has stray case and whitespace. -/
def c7Issue : JiraIssueInfo :=
  { issueBase with key := "X-2", summary := "Assign me",
                   statusName := "Open",
                   assigneeEmail := some " Jane@Co.com " }

/-- Oracle inputs for the assignee run: one member, `jane@co.com`. -/
def c7Deps : ImportDeps PlannerTask :=
  { jiraConfig := some cfgSample, workspace := some wsSample,
    fetchIssue := fun k => if k == "X-2" then .ok c7Issue else .error "not found",
    cachedFragments := [], fragToTask := id,
    members := [⟨"u1", some "jane@co.com"⟩],
    countLocal := 0, createResult := .ok "frag-2",
    now := "2026-01-01T00:00:00.000Z" }

/-- Sample issue carrying an epic key but no epic name. -/
def c8Issue : JiraIssueInfo :=
  { issueBase with key := "T-1", summary := "Child task",
                   statusName := "To Do", epicKey := some "E-9" }

/-- The epic issue, fetched to resolve its display name. -/
def c8Epic : JiraIssueInfo :=
  { issueBase with key := "E-9", summary := "Big epic", statusName := "To Do" }

/-- Oracle inputs where the epic fetch succeeds. -/
def c8Deps : ImportDeps PlannerTask :=
  { jiraConfig := some cfgSample, workspace := some wsSample,
    fetchIssue := fun k =>
      if k == "T-1" then .ok c8Issue
      else if k == "E-9" then .ok c8Epic
      else .error "not found",
    cachedFragments := [], fragToTask := id, members := [],
    countLocal := 0, createResult := .ok "frag-3",
    now := "2026-01-01T00:00:00.000Z" }

/-- Oracle inputs where the epic fetch fails. -/
def c8DepsFail : ImportDeps PlannerTask :=
  { c8Deps with fetchIssue := fun k =>
      if k == "T-1" then .ok c8Issue else .error "boom" }

/-- The boolean transition-matching predicate used by `selectTransition`. -/
def transitionMatchB (st : TaskStatus) (t : JiraTransition) : Bool :=
  ((plannerStatusToJiraStatus st).map strLower).contains (strLower (transitionTargetName t))

theorem selectTransition_eq_find (st : TaskStatus) (ts : List JiraTransition) :
    selectTransition st ts = ts.find? (transitionMatchB st) := rfl

theorem transitionMatchB_iff (st : TaskStatus) (t : JiraTransition) :
    transitionMatchB st t = true ↔ matchesStatus st t := by
  simp [transitionMatchB, matchesStatus, List.mem_map]

theorem find?_first {α : Type _} (p : α → Bool) (l : List α) (x : α)
    (h : l.find? p = some x) :
    ∃ i, ∃ hi : i < l.length, l.get ⟨i, hi⟩ = x ∧ p x = true ∧
      ∀ j, ∀ hj : j < l.length, j < i → p (l.get ⟨j, hj⟩) = false := by
  induction l with
  | nil => simp at h
  | cons a t ih =>
    by_cases hpa : p a
    · have hx : x = a := by
        rw [List.find?_cons_of_pos t hpa] at h
        exact (Option.some_injective _ h).symm
      subst hx
      exact ⟨0, Nat.succ_pos _, rfl, hpa, fun j hj hlt => absurd hlt (Nat.not_lt_zero j)⟩
    · rw [List.find?_cons_of_neg t hpa] at h
      obtain ⟨i, hi, hget, hpx, hbefore⟩ := ih h
      refine ⟨i + 1, Nat.succ_lt_succ hi, hget, hpx, ?_⟩
      intro j hj hlt
      match j, hj with
      | 0, _ => simpa using hpa
      | j' + 1, hj =>
        exact hbefore j' (Nat.lt_of_succ_lt_succ hj) (Nat.lt_of_succ_lt_succ hlt)

theorem leadsWith_self_append (p v : List Char) : leadsWith p (p ++ v) = true := by
  induction p with
  | nil => rfl
  | cons c cs ih => simp [leadsWith, ih]

theorem hasSub_of_parts (pat u v : List Char) : hasSub pat (u ++ pat ++ v) = true := by
  induction u with
  | nil =>
    rcases hpv : pat ++ v with _ | ⟨c, t⟩
    · have hp : pat = [] := (List.append_eq_nil.mp hpv).1
      have hv : v = [] := (List.append_eq_nil.mp hpv).2
      simp [hp, hv, hasSub, leadsWith]
    · have : hasSub pat (pat ++ v) = (leadsWith pat (c :: t) || hasSub pat t) := by
        rw [hpv]; rfl
      simp only [List.nil_append, this, ← hpv, leadsWith_self_append, Bool.true_or]
  | cons c u' ih =>
    have : (c :: u') ++ pat ++ v = c :: (u' ++ pat ++ v) := by simp
    rw [this, hasSub, ih, Bool.or_true]

theorem strIncludes_parts (u pat v : String) :
    strIncludes (u ++ pat ++ v) pat = true := by
  have h : (u ++ pat ++ v).data = u.data ++ pat.data ++ v.data := by
    simp [String.data_append]
  simp only [strIncludes, h]
  exact hasSub_of_parts pat.data u.data v.data

theorem strIncludes_empty_pat (s : String) : strIncludes s "" = true := by
  have h : ("" : String).data = [] := rfl
  rw [strIncludes, h]
  rcases s.data with _ | ⟨c, t⟩
  · rfl
  · rw [hasSub]
    simp [leadsWith]

theorem joinSep_mem (sep : String) :
    ∀ (l : List String) (x : String), x ∈ l →
      ∃ u v, joinSep sep l = u ++ x ++ v
  | [], x, hx => absurd hx (List.not_mem_nil x)
  | [a], x, hx => by
    have hxa : x = a := by simpa using hx
    subst hxa
    exact ⟨"", "", by simp [joinSep]⟩
  | a :: b :: rest, x, hx => by
    rcases List.mem_cons.mp hx with h | h
    · subst h
      exact ⟨"", sep ++ joinSep sep (b :: rest), by simp [joinSep, String.append_assoc]⟩
    · obtain ⟨u, v, huv⟩ := joinSep_mem sep (b :: rest) x h
      exact ⟨a ++ sep ++ u, v, by simp [joinSep, huv, String.append_assoc]⟩

theorem joinSep_eq_empty {sep : String} (hsep : sep ≠ "") :
    ∀ {l : List String}, joinSep sep l = "" → ∀ x ∈ l, x = "" := by
  intro l h x hx
  cases l with
  | nil => cases hx
  | cons a rest =>
    cases rest with
    | nil =>
      have hxa : x = a := by simpa using hx
      have ha : a = "" := by simpa [joinSep] using h
      rw [hxa, ha]
    | cons b r2 =>
      exfalso
      have hlen := congrArg String.length h
      have hs : sep.length ≠ 0 := by
        intro h0
        apply hsep
        cases sep with
        | mk d =>
          simp [String.length] at h0
          simp [h0]
      simp [joinSep, String.length_append] at hlen
      omega

mutual

theorem walkNode_eq (acc : List String) (n : ADFNode) :
    walkNode acc n = acc ++ nodeTexts n := by
  cases n with
  | scalar => simp [walkNode, nodeTexts]
  | node t c =>
    cases c with
    | none => cases t <;> simp [walkNode, nodeTexts]
    | some kids => cases t <;> simp [walkNode, nodeTexts, walkList_eq]

theorem walkList_eq (acc : List String) (ns : List ADFNode) :
    walkList acc ns = acc ++ listTexts ns := by
  cases ns with
  | nil => simp [walkList, listTexts]
  | cons n rest =>
    rw [walkList, listTexts, walkNode_eq, walkList_eq, List.append_assoc]

end

theorem hasSub_append_left (pat pre s : List Char) (h : hasSub pat s = true) :
    hasSub pat (pre ++ s) = true := by
  induction pre with
  | nil => simpa
  | cons c pre' ih => rw [List.cons_append, hasSub, ih, Bool.or_true]

theorem strIncludes_prepend (p s pat : String) (h : strIncludes s pat = true) :
    strIncludes (p ++ s) pat = true := by
  simp only [strIncludes, String.data_append] at h ⊢
  exact hasSub_append_left pat.data p.data s.data h

theorem noMatchError_lists (issueKey : String) (st : TaskStatus)
    (ts : List JiraTransition) :
    ∀ t ∈ ts, strIncludes (noMatchError issueKey st ts) (transitionTargetName t) = true := by
  intro t ht
  have hx : transitionTargetName t ∈ ts.map transitionTargetName :=
    List.mem_map_of_mem _ ht
  by_cases hj : joinSep ", " (ts.map transitionTargetName) = ""
  · have hxe : transitionTargetName t = "" :=
      joinSep_eq_empty (by decide) hj _ hx
    rw [hxe]
    exact strIncludes_empty_pat _
  · obtain ⟨u, v, huv⟩ := joinSep_mem ", " _ _ hx
    have hne : ((joinSep ", " (ts.map transitionTargetName)) == "") = false := by
      simpa using hj
    simp only [noMatchError, hne, if_false, Bool.false_eq_true]
    apply strIncludes_prepend
    rw [huv]
    exact strIncludes_parts u (transitionTargetName t) v

theorem memberMatchB_iff (e : String) (m : Member) :
    memberMatchB e m = true ↔ emailMatches e m := by
  cases m with
  | mk uid em => cases em <;> simp [memberMatchB, emailMatches]

theorem orTruthy_chain_eq (a b c d : Option String) :
    (match orTruthy a (orTruthy b (orTruthy c d)) with
     | some p => if p ≠ "" then [p] else []
     | none => ([] : List String)) =
    (match firstTruthy [a, b, c, d] with
     | some p => [p]
     | none => []) := by
  rcases a with _ | sa <;> rcases b with _ | sb <;> rcases c with _ | sc <;>
    rcases d with _ | sd <;>
    simp only [orTruthy, firstTruthy, List.findSome?] <;>
    split_ifs <;> simp_all

/-- C6: for every rich-document content, `descriptionToPlainText`
flattens it to the leaf text nodes in document order, recursing through
arbitrary nesting and tolerating missing fields (texts joined with
single spaces, then trimmed); in particular the nested document with
texts a and b flattens to the string a-space-b. -/
theorem description_flattening :
    (∀ content : List ADFNode,
      descriptionToPlainText (.docVal (some content)) =
        strTrim (joinSep " " (listTexts content))) ∧
    descriptionToPlainText
      (.docVal (some [ADFNode.node none (some [ADFNode.node (some "a") none]),
                      ADFNode.node (some "b") none])) = "a b" := by
  constructor
  · intro content
    simp [descriptionToPlainText, walkList_eq]
  · decide

/-- C2: the ranked-name table is exactly the four literal lists, and the
resolver picks the first transition in the tracker's returned order
whose target-status name is case-insensitively a member of the ranked
set for the status; ranked names define membership only, not priority. -/
theorem transition_selection_first_match (st : TaskStatus) (ts : List JiraTransition) :
    (plannerStatusToJiraStatus .todo =
        ["To Do", "Open", "Backlog", "Selected for Development"] ∧
     plannerStatusToJiraStatus .inProgress =
        ["In Progress", "In Development", "In Review"] ∧
     plannerStatusToJiraStatus .done = ["Done", "Closed", "Resolved", "Complete"] ∧
     plannerStatusToJiraStatus .archived = ["Done", "Closed", "Resolved", "Complete"]) ∧
    (∀ t, selectTransition st ts = some t →
      ∃ i, ∃ hi : i < ts.length, ts.get ⟨i, hi⟩ = t ∧ matchesStatus st t ∧
        ∀ j, ∀ hj : j < ts.length, j < i → ¬ matchesStatus st (ts.get ⟨j, hj⟩)) ∧
    (selectTransition st ts = none → ∀ t ∈ ts, ¬ matchesStatus st t) := by
  refine ⟨⟨rfl, rfl, rfl, rfl⟩, ?_, ?_⟩
  · intro t h
    rw [selectTransition_eq_find] at h
    obtain ⟨i, hi, hget, hpt, hbefore⟩ := find?_first _ _ _ h
    refine ⟨i, hi, hget, (transitionMatchB_iff st t).mp hpt, ?_⟩
    intro j hj hlt hmatch
    have hfalse := hbefore j hj hlt
    rw [(transitionMatchB_iff st _).mpr hmatch] at hfalse
    cases hfalse
  · intro h t ht hmatch
    rw [selectTransition_eq_find] at h
    exact (List.find?_eq_none.mp h t ht) ((transitionMatchB_iff st t).mpr hmatch)

/-- Witness for C2: for status done and tracker order
In Review then Closed, the resolver's pick is characterized as the first
match, namely Closed. -/
theorem transition_selection_first_match_witness :
    ∃ i, ∃ hi : i <
        ([⟨"1", "In Review", none⟩, ⟨"2", "Closed", none⟩] : List JiraTransition).length,
      ([⟨"1", "In Review", none⟩, ⟨"2", "Closed", none⟩] : List JiraTransition).get ⟨i, hi⟩ =
        ⟨"2", "Closed", none⟩ ∧
      matchesStatus .done ⟨"2", "Closed", none⟩ ∧
      ∀ j, ∀ hj : j <
          ([⟨"1", "In Review", none⟩, ⟨"2", "Closed", none⟩] : List JiraTransition).length,
        j < i → ¬ matchesStatus .done
          (([⟨"1", "In Review", none⟩, ⟨"2", "Closed", none⟩] : List JiraTransition).get ⟨j, hj⟩) :=
  (transition_selection_first_match .done
      [⟨"1", "In Review", none⟩, ⟨"2", "Closed", none⟩]).2.1
    ⟨"2", "Closed", none⟩ (by decide)

/-- C3: when no available transition matches the ranked-name set,
`transitionJiraIssue` POSTs nothing and returns a failure result whose
message lists the available transition names; for done with
In Review and Closed available it selects Closed, and with only Backlog
available it selects none. -/
theorem no_matching_transition_no_post (post : String → TransitionApiResult)
    (issueKey : String) (st : TaskStatus) (ts : List JiraTransition)
    (h : ∀ t ∈ ts, ¬ matchesStatus st t) :
    (transitionRun post issueKey st ts).posted = none ∧
    (transitionRun post issueKey st ts).result = .err (noMatchError issueKey st ts) ∧
    (∀ t ∈ ts, strIncludes (noMatchError issueKey st ts) (transitionTargetName t) = true) ∧
    selectTransition .done [⟨"1", "In Review", none⟩, ⟨"2", "Closed", none⟩] =
      some ⟨"2", "Closed", none⟩ ∧
    selectTransition .done [⟨"9", "Backlog", none⟩] = none := by
  have hsel : selectTransition st ts = none := by
    rw [selectTransition_eq_find]
    apply List.find?_eq_none.mpr
    intro t ht hb
    exact h t ht ((transitionMatchB_iff st t).mp hb)
  exact ⟨by simp [transitionRun, hsel], by simp [transitionRun, hsel],
         noMatchError_lists issueKey st ts, by decide, by decide⟩

/-- Witness for C3: concrete no-match run for done with only Backlog
available: nothing POSTed, failure result carrying the message. -/
theorem no_matching_transition_no_post_witness :
    (transitionRun (fun _ => .ok) "K-1" .done [⟨"9", "Backlog", none⟩]).posted = none ∧
    (transitionRun (fun _ => .ok) "K-1" .done [⟨"9", "Backlog", none⟩]).result =
      .err (noMatchError "K-1" .done [⟨"9", "Backlog", none⟩]) ∧
    (∀ t ∈ ([⟨"9", "Backlog", none⟩] : List JiraTransition),
      strIncludes (noMatchError "K-1" .done [⟨"9", "Backlog", none⟩])
        (transitionTargetName t) = true) ∧
    selectTransition .done [⟨"1", "In Review", none⟩, ⟨"2", "Closed", none⟩] =
      some ⟨"2", "Closed", none⟩ ∧
    selectTransition .done [⟨"9", "Backlog", none⟩] = none :=
  no_matching_transition_no_post (fun _ => .ok) "K-1" .done
    [⟨"9", "Backlog", none⟩] (by decide)

/-- C9: a transition without a target-status descriptor is matched by
its own display name; a transition named Closed with no target
descriptor is selected for status done. -/
theorem transition_fallback_to_own_name (st : TaskStatus) (t : JiraTransition)
    (h : t.toStatus = none) :
    transitionTargetName t = t.name ∧
    (matchesStatus st t ↔
      ∃ n ∈ plannerStatusToJiraStatus st, strLower n = strLower t.name) ∧
    selectTransition .done [⟨"5", "Closed", none⟩] = some ⟨"5", "Closed", none⟩ := by
  have h1 : transitionTargetName t = t.name := by
    simp [transitionTargetName, h]
  exact ⟨h1, by rw [matchesStatus, h1], by decide⟩

/-- Witness for C9 at the concrete transition Closed with no target
descriptor. -/
theorem transition_fallback_to_own_name_witness :
    transitionTargetName ⟨"5", "Closed", none⟩ =
      (⟨"5", "Closed", none⟩ : JiraTransition).name ∧
    (matchesStatus .done ⟨"5", "Closed", none⟩ ↔
      ∃ n ∈ plannerStatusToJiraStatus .done,
        strLower n = strLower (⟨"5", "Closed", none⟩ : JiraTransition).name) ∧
    selectTransition .done [⟨"5", "Closed", none⟩] = some ⟨"5", "Closed", none⟩ :=
  transition_fallback_to_own_name .done ⟨"5", "Closed", none⟩ rfl

/-- C10: the inverse heuristics are total with fixed defaults: a status
name matching no recognized substring (including the Unknown placeholder
substituted for a missing status) maps to todo, and a missing or
unrecognized priority name maps to medium. -/
theorem heuristic_defaults_total :
    (∀ s, statusRecognized s = false → jiraStatusToPlanner s = .todo) ∧
    statusNameOfRaw none = "Unknown" ∧
    jiraStatusToPlanner "Unknown" = .todo ∧
    jiraPriorityToPlanner none = .medium ∧
    (∀ p, priorityRecognized p = false → jiraPriorityToPlanner (some p) = .medium) := by
  refine ⟨?_, rfl, by decide, rfl, ?_⟩
  · intro s h
    simp only [statusRecognized, Bool.or_eq_false_iff] at h
    obtain ⟨⟨⟨⟨⟨⟨⟨h1, h2⟩, h3⟩, h4⟩, h5⟩, h6⟩, h7⟩, h8⟩ := h
    simp [jiraStatusToPlanner, h1, h2, h3, h4, h5, h6, h7, h8]
  · intro p h
    simp only [priorityRecognized, Bool.or_eq_false_iff] at h
    obtain ⟨⟨⟨⟨⟨h1, h2⟩, h3⟩, h4⟩, h5⟩, h6⟩ := h
    simp [jiraPriorityToPlanner, h1, h2, h3, h4, h5, h6]

/-- Witness for C10 at concrete unrecognized names. -/
theorem heuristic_defaults_total_witness :
    statusRecognized "Weird" = false ∧ jiraStatusToPlanner "Weird" = .todo ∧
    priorityRecognized "Whatever" = false ∧
    jiraPriorityToPlanner (some "Whatever") = .medium :=
  ⟨by decide, heuristic_defaults_total.1 "Weird" (by decide), by decide,
   heuristic_defaults_total.2.2.2.2 "Whatever" (by decide)⟩

theorem importIssue_after_resolve {Frag : Type} (deps : ImportDeps Frag)
    (issueKey : String) (w : WorkspaceConfig) (issue : JiraIssueInfo)
    (calls : List String)
    (hcfg : deps.jiraConfig.isSome = true)
    (hw : deps.workspace = some w)
    (hft : optTruthy w.taskFragmentTypeId = true)
    (hres : resolveIssue deps issueKey = .ok (issue, calls)) :
    importIssue deps issueKey =
      match deps.cachedFragments.find? (dedupHit deps issue) with
      | some existing => ⟨.ok (deps.fragToTask existing), false, calls⟩
      | none => importCreate deps issue calls := by
  obtain ⟨cfg, hc⟩ := Option.isSome_iff_exists.mp hcfg
  simp [importIssue, hc, hw, hft, hres]

theorem importIssue_fetchCalls {Frag : Type} (deps : ImportDeps Frag)
    (issueKey : String) (w : WorkspaceConfig) (issue : JiraIssueInfo)
    (calls : List String)
    (hcfg : deps.jiraConfig.isSome = true)
    (hw : deps.workspace = some w)
    (hft : optTruthy w.taskFragmentTypeId = true)
    (hres : resolveIssue deps issueKey = .ok (issue, calls)) :
    (importIssue deps issueKey).fetchCalls = calls := by
  rw [importIssue_after_resolve deps issueKey w issue calls hcfg hw hft hres]
  rcases deps.cachedFragments.find? (dedupHit deps issue) with _ | f
  · rw [importCreate]
    rcases deps.createResult with e | fid <;> rfl
  · rfl

/-- C1: import is idempotent per issue key: when the cached task list
already holds a task whose jiraKey equals the fetched issue's key, the
handler returns that task unchanged and does not call create; a new
fragment is created only when no cached task carries the key. -/
theorem import_dedup_idempotent {Frag : Type} (deps : ImportDeps Frag)
    (issueKey : String) (w : WorkspaceConfig) (issue : JiraIssueInfo)
    (calls : List String)
    (hcfg : deps.jiraConfig.isSome = true)
    (hw : deps.workspace = some w)
    (hft : optTruthy w.taskFragmentTypeId = true)
    (hres : resolveIssue deps issueKey = .ok (issue, calls)) :
    ((∃ f ∈ deps.cachedFragments, (deps.fragToTask f).jiraKey = some issue.key) →
      (importIssue deps issueKey).createCalled = false ∧
      ∃ f ∈ deps.cachedFragments,
        (deps.fragToTask f).jiraKey = some issue.key ∧
        (importIssue deps issueKey).response = .ok (deps.fragToTask f)) ∧
    ((importIssue deps issueKey).createCalled = true →
      ∀ f ∈ deps.cachedFragments, (deps.fragToTask f).jiraKey ≠ some issue.key) := by
  rw [importIssue_after_resolve deps issueKey w issue calls hcfg hw hft hres]
  rcases hfind : deps.cachedFragments.find? (dedupHit deps issue) with _ | f
  · constructor
    · rintro ⟨f, hf, hkey⟩
      exfalso
      apply List.find?_eq_none.mp hfind f hf
      simp [dedupHit, hkey]
    · intro _ f hf hkey
      apply List.find?_eq_none.mp hfind f hf
      simp [dedupHit, hkey]
  · have hmem := List.mem_of_find?_eq_some hfind
    have hkey : (deps.fragToTask f).jiraKey = some issue.key := by
      have := List.find?_some hfind
      simpa [dedupHit] using this
    constructor
    · intro _
      exact ⟨rfl, f, hmem, hkey, rfl⟩
    · intro hcc
      cases hcc

/-- Witness for C1: with task `X-1` already cached, importing `X-1`
returns the cached task and does not create. -/
theorem import_dedup_idempotent_witness :
    (importIssue c1Deps "X-1").createCalled = false ∧
    ∃ f ∈ c1Deps.cachedFragments,
      (c1Deps.fragToTask f).jiraKey = some c1Issue.key ∧
      (importIssue c1Deps "X-1").response = .ok (c1Deps.fragToTask f) :=
  (import_dedup_idempotent c1Deps "X-1" wsSample c1Issue ["X-1"]
      rfl rfl (by decide) rfl).1
    ⟨c1Task, by simp [c1Deps], rfl⟩

/-- C5: with no tracker credentials, or no workspace / task fragment
type configured, the handler returns the corresponding error with no
tracker fetch and no fragment create. -/
theorem import_not_configured {Frag : Type} (deps : ImportDeps Frag)
    (issueKey : String) :
    (deps.jiraConfig = none →
      importIssue deps issueKey =
        ⟨.error "JIRA is not configured. Add domain, email, and API token in Settings.",
         false, []⟩) ∧
    (∀ cfg, deps.jiraConfig = some cfg →
      (deps.workspace = none ∨
        ∃ w, deps.workspace = some w ∧ optTruthy w.taskFragmentTypeId = false) →
      importIssue deps issueKey =
        ⟨.error "No workspace or fragment type configured.", false, []⟩) := by
  constructor
  · intro h
    simp [importIssue, h]
  · intro cfg hc hw
    rcases hw with hw | ⟨w, hw, hft⟩
    · simp [importIssue, hc, hw]
    · simp [importIssue, hc, hw, hft]

/-- Witness for C5: concrete unconfigured runs (no credentials; then no
workspace). -/
theorem import_not_configured_witness :
    importIssue c5DepsA "PROJ-9" =
      ⟨.error "JIRA is not configured. Add domain, email, and API token in Settings.",
       false, []⟩ ∧
    importIssue c5DepsB "PROJ-9" =
      ⟨.error "No workspace or fragment type configured.", false, []⟩ :=
  ⟨(import_not_configured c5DepsA "PROJ-9").1 rfl,
   (import_not_configured c5DepsB "PROJ-9").2 cfgSample rfl (Or.inl rfl)⟩

/-- C4: a freshly imported task has title `[key] summary`, status and
priority from the substring heuristics, tags jira plus the project key
when present, projects the singleton of the first present value among
epic name, epic key, project name, project key (else empty), and both
order fields equal to the current count of local-origin-tagged
fragments. -/
theorem imported_task_fields {Frag : Type} (deps : ImportDeps Frag)
    (issueKey : String) (w : WorkspaceConfig) (issue : JiraIssueInfo)
    (calls : List String) (fid : String)
    (hcfg : deps.jiraConfig.isSome = true)
    (hw : deps.workspace = some w)
    (hft : optTruthy w.taskFragmentTypeId = true)
    (hres : resolveIssue deps issueKey = .ok (issue, calls))
    (hdedup : deps.cachedFragments.find? (dedupHit deps issue) = none)
    (hcr : deps.createResult = .ok fid) :
    (importIssue deps issueKey).response = .ok (derivedTask deps issue fid) ∧
    (importIssue deps issueKey).createCalled = true ∧
    (derivedTask deps issue fid).title = "[" ++ issue.key ++ "] " ++ issue.summary ∧
    (derivedTask deps issue fid).status = jiraStatusToPlanner issue.statusName ∧
    (derivedTask deps issue fid).priority = jiraPriorityToPlanner issue.priorityName ∧
    (derivedTask deps issue fid).tags =
      "jira" :: (match issue.projectKey with
        | some pk => if pk ≠ "" then [pk] else []
        | none => []) ∧
    (derivedTask deps issue fid).projects =
      (match firstTruthy [issue.epicName, issue.epicKey,
                          issue.projectName, issue.projectKey] with
       | some p => [p]
       | none => []) ∧
    (derivedTask deps issue fid).kanbanOrder = deps.countLocal ∧
    (derivedTask deps issue fid).listOrder = deps.countLocal := by
  rw [importIssue_after_resolve deps issueKey w issue calls hcfg hw hft hres, hdedup]
  refine ⟨by simp [importCreate, hcr], by simp [importCreate, hcr], rfl, rfl, rfl, ?_, ?_, rfl, rfl⟩
  · show (match issue.projectKey with
      | some pk => if pk ≠ "" then ["jira", pk] else ["jira"]
      | none => ["jira"]) = _
    rcases issue.projectKey with _ | pk
    · rfl
    · by_cases hpk : pk = "" <;> simp [hpk]
  · exact orTruthy_chain_eq issue.epicName issue.epicKey issue.projectName issue.projectKey

/-- Witness for C4: importing `PROJ-9` (status In Progress, priority
High, project key PROJ) creates a task with the derived fields. -/
theorem imported_task_fields_witness :
    (importIssue c4Deps "PROJ-9").response = .ok (derivedTask c4Deps c4Issue "frag-1") ∧
    (importIssue c4Deps "PROJ-9").createCalled = true ∧
    (derivedTask c4Deps c4Issue "frag-1").title =
      "[" ++ c4Issue.key ++ "] " ++ c4Issue.summary ∧
    (derivedTask c4Deps c4Issue "frag-1").status =
      jiraStatusToPlanner c4Issue.statusName ∧
    (derivedTask c4Deps c4Issue "frag-1").priority =
      jiraPriorityToPlanner c4Issue.priorityName ∧
    (derivedTask c4Deps c4Issue "frag-1").tags =
      "jira" :: (match c4Issue.projectKey with
        | some pk => if pk ≠ "" then [pk] else []
        | none => []) ∧
    (derivedTask c4Deps c4Issue "frag-1").projects =
      (match firstTruthy [c4Issue.epicName, c4Issue.epicKey,
                          c4Issue.projectName, c4Issue.projectKey] with
       | some p => [p]
       | none => []) ∧
    (derivedTask c4Deps c4Issue "frag-1").kanbanOrder = c4Deps.countLocal ∧
    (derivedTask c4Deps c4Issue "frag-1").listOrder = c4Deps.countLocal :=
  imported_task_fields c4Deps "PROJ-9" wsSample c4Issue ["PROJ-9"] "frag-1"
    rfl rfl (by decide) rfl rfl rfl

/-- C7: assignee resolution matches the issue's assignee email against
member emails case-insensitively after trimming both sides; when no
member matches, the assignee stays unset and the import still succeeds. -/
theorem assignee_email_matching {Frag : Type} (deps : ImportDeps Frag)
    (issueKey : String) (w : WorkspaceConfig) (issue : JiraIssueInfo)
    (calls : List String) (fid : String) (e : String)
    (hcfg : deps.jiraConfig.isSome = true)
    (hw : deps.workspace = some w)
    (hft : optTruthy w.taskFragmentTypeId = true)
    (hres : resolveIssue deps issueKey = .ok (issue, calls))
    (hdedup : deps.cachedFragments.find? (dedupHit deps issue) = none)
    (hcr : deps.createResult = .ok fid)
    (he : issue.assigneeEmail = some e) (hne : e ≠ "") :
    (importIssue deps issueKey).response = .ok (derivedTask deps issue fid) ∧
    (∀ m, deps.members.find? (memberMatchB e) = some m →
      (derivedTask deps issue fid).assigneeId = some m.userId ∧ emailMatches e m) ∧
    ((∀ m ∈ deps.members, ¬ emailMatches e m) →
      (derivedTask deps issue fid).assigneeId = none) := by
  have hassign : (derivedTask deps issue fid).assigneeId =
      (deps.members.find? (memberMatchB e)).map (·.userId) := by
    simp [derivedTask, he, hne]
  refine ⟨?_, ?_, ?_⟩
  · rw [importIssue_after_resolve deps issueKey w issue calls hcfg hw hft hres, hdedup]
    simp [importCreate, hcr]
  · intro m hm
    refine ⟨by rw [hassign, hm]; rfl, ?_⟩
    exact (memberMatchB_iff e m).mp (List.find?_some hm)
  · intro h
    rw [hassign, List.find?_eq_none.mpr ?_]
    · rfl
    · intro m hm hb
      exact h m hm ((memberMatchB_iff e m).mp hb)

/-- Witness for C7: assignee email with stray spaces and case matches
member `jane@co.com`, so the imported task is assigned to `u1`. -/
theorem assignee_email_matching_witness :
    (importIssue c7Deps "X-2").response = .ok (derivedTask c7Deps c7Issue "frag-2") ∧
    (derivedTask c7Deps c7Issue "frag-2").assigneeId = some "u1" ∧
    emailMatches " Jane@Co.com " ⟨"u1", some "jane@co.com"⟩ := by
  have h := assignee_email_matching c7Deps "X-2" wsSample c7Issue ["X-2"] "frag-2"
    " Jane@Co.com " rfl rfl (by decide) rfl rfl rfl rfl (by decide)
  have h2 := h.2.1 ⟨"u1", some "jane@co.com"⟩ (by decide)
  exact ⟨h.1, h2.1, h2.2⟩

/-- C8: with an epic key but no epic name, the handler performs exactly
one additional tracker fetch; a failed fetch or an empty summary falls
back to the epic key as display name, and resolution never fails the
import. -/
theorem epic_name_resolution {Frag : Type} (deps : ImportDeps Frag)
    (issueKey k : String) (issue0 : JiraIssueInfo) (w : WorkspaceConfig)
    (hcfg : deps.jiraConfig.isSome = true)
    (hw : deps.workspace = some w)
    (hft : optTruthy w.taskFragmentTypeId = true)
    (hfetch : deps.fetchIssue issueKey = .ok issue0)
    (hk : issue0.epicKey = some k) (hkne : k ≠ "")
    (hname : optTruthy issue0.epicName = false) :
    (∀ e, deps.fetchIssue k = .ok e →
      resolveIssue deps issueKey =
        .ok ({ issue0 with
                 epicName := some (if e.summary == "" then k else e.summary) },
               [issueKey, k])) ∧
    (∀ msg, deps.fetchIssue k = .error msg →
      resolveIssue deps issueKey =
        .ok ({ issue0 with epicName := some k }, [issueKey, k])) ∧
    (importIssue deps issueKey).fetchCalls = [issueKey, k] := by
  have hkT : optTruthy (some k) = true := by simp [optTruthy, hkne]
  have hok : ∀ issue1, deps.fetchIssue k = .ok issue1 →
      resolveIssue deps issueKey =
        .ok ({ issue0 with
                 epicName := some (if issue1.summary == "" then k else issue1.summary) },
             [issueKey, k]) := by
    intro issue1 h1
    simp [resolveIssue, hfetch, hk, hkT, hname, h1]
  have herr : ∀ msg, deps.fetchIssue k = .error msg →
      resolveIssue deps issueKey =
        .ok ({ issue0 with epicName := some k }, [issueKey, k]) := by
    intro msg h1
    simp [resolveIssue, hfetch, hk, hkT, hname, h1]
  refine ⟨hok, herr, ?_⟩
  rcases hkf : deps.fetchIssue k with msg | issue1
  · exact importIssue_fetchCalls deps issueKey w _ _ hcfg hw hft (herr msg hkf)
  · exact importIssue_fetchCalls deps issueKey w _ _ hcfg hw hft (hok issue1 hkf)

/-- Witness for C8: epic fetch success fills the epic's summary; epic
fetch failure falls back to the epic key; both do exactly two fetches. -/
theorem epic_name_resolution_witness :
    resolveIssue c8Deps "T-1" =
      .ok ({ c8Issue with
               epicName := some (if c8Epic.summary == "" then "E-9" else c8Epic.summary) },
           ["T-1", "E-9"]) ∧
    (importIssue c8Deps "T-1").fetchCalls = ["T-1", "E-9"] ∧
    resolveIssue c8DepsFail "T-1" =
      .ok ({ c8Issue with epicName := some "E-9" }, ["T-1", "E-9"]) := by
  have hA := epic_name_resolution c8Deps "T-1" "E-9" c8Issue wsSample
    rfl rfl (by decide) rfl rfl (by decide) rfl
  have hB := epic_name_resolution c8DepsFail "T-1" "E-9" c8Issue wsSample
    rfl rfl (by decide) rfl rfl (by decide) rfl
  exact ⟨hA.1 c8Epic rfl, hA.2.2, hB.2.1 "boom" rfl⟩
